import Mathlib

/-!
Shallow embedding of the Camarcl flowershop backend (`src/server/index.js`).

The persistent MySQL store is modelled as an explicit in-memory `Store`
record; each Express route handler becomes a pure function from a store
and the request parameters to the updated store and a response value.
Auto-increment primary keys become the `nextOrderId` / `nextProductId`
counters.  `created_at` timestamps and result ordering are not relevant
to any claim and are omitted.  JS numeric fields are modelled as `Int`
(quantities, prices and stock are exercised only through comparison,
subtraction, multiplication and addition, which agree with JS number
semantics on integral inputs).  A MySQL transaction that throws rolls
back: in the model an error result is paired with the unchanged store.
-/

namespace Flowershop

/-- A row of the `products` table. -/
structure Product where
  id : Nat
  name : String
  price : Int
  stock : Int
  category : Option String
  description : Option String
  image_url : String
deriving DecidableEq, Repr

/-- A row of the `orders` table. -/
structure Order where
  id : Nat
  user_name : String
  total : Int
  payment_mode : String
  status : String
deriving DecidableEq, Repr

/-- A row of the `order_items` table. -/
structure OrderItem where
  order_id : Nat
  product_id : Nat
  product_name : String
  quantity : Int
  price : Int
  total : Int
deriving DecidableEq, Repr

/-- A row of the `notifications` table (read flag and timestamp omitted:
no claim mentions them). -/
structure Notification where
  type : String
  reference_id : Nat
  message : String
deriving DecidableEq, Repr

/-- The whole persistent store. -/
structure Store where
  products : List Product
  orders : List Order
  order_items : List OrderItem
  notifications : List Notification
  nextOrderId : Nat
  nextProductId : Nat
deriving DecidableEq, Repr

/-- One entry of the `items` array of a POST `/orders` request. -/
structure OrderItemReq where
  product_id : Nat
  quantity : Int
deriving DecidableEq, Repr

/-- The intermediate `orderItemsData` records built while validating an
order (`src/server/index.js` lines 425-432). -/
structure LineData where
  product_id : Nat
  product_name : String
  quantity : Int
  price : Int
  total : Int
deriving DecidableEq, Repr

/-- Errors produced by the POST `/orders` handler: the HTTP 400 input
check and the two exceptions thrown inside the transaction. -/
inductive OrderError where
  | validation : String → OrderError
  | productNotFound : Nat → OrderError
  | insufficientStock : String → OrderError
deriving DecidableEq, Repr

deriving instance DecidableEq for Except

/-- Returns `true` for the two errors thrown by the stock-check phase of the
order transaction (as opposed to the pre-storage input validation). -/
def OrderError.isStockError : OrderError → Bool
  | .validation _ => false
  | .productNotFound _ => true
  | .insufficientStock _ => true

/-- The `sendNotification` helper (`index.js` lines 124-141): inserts one row into
`notifications` (the socket broadcast is outside the store model; a
failure of the insert is caught and swallowed, so the caller always
continues). -/
def sendNotification (type : String) (reference_id : Nat) (message : String)
    (ns : List Notification) : List Notification :=
  ns ++ [⟨type, reference_id, message⟩]

/-- The notification row produced by `checkLowStock` for product `id`
named `name`. -/
def lowStockNote (id : Nat) (name : String) : Notification :=
  ⟨"low on supplies", id, "Product " ++ name ++ " is low on supplies!"⟩

/-- The `checkLowStock` helper (`index.js` lines 143-152): emits one low-stock
notification iff the numeric stock is strictly below 20. -/
def checkLowStock (id : Nat) (stock : Int) (name : String) : List Notification :=
  if stock < 20 then [lowStockNote id name] else []

/-- The validation/pricing pass of POST `/orders` (`index.js` lines
424-432): `items.map(...)` walks the request lines left to right and
throws at the first line whose product is absent from the selected
`products` rows or whose quantity exceeds that product's current stock;
otherwise it snapshots name/price and prices the line.  The SQL
`SELECT ... WHERE id IN (productIds)` followed by `products.find(...)`
is folded into a direct `find?` over the products table: both return
the first row whose id equals the requested product id. -/
def buildOrderItems (products : List Product) : List OrderItemReq → Except OrderError (List LineData)
  | [] => .ok []
  | item :: rest =>
    match products.find? (fun p => p.id == item.product_id) with
    | none => .error (.productNotFound item.product_id)
    | some product =>
      if product.stock < item.quantity then
        .error (.insufficientStock product.name)
      else
        match buildOrderItems products rest with
        | .error e => .error e
        | .ok lines =>
          .ok ({ product_id := product.id, product_name := product.name,
                 quantity := item.quantity, price := product.price,
                 total := product.price * item.quantity } :: lines)

/-- SQL `UPDATE products SET stock=? WHERE id=?`: every row whose id matches
gets the given stock value. -/
def setStockAll (ps : List Product) (pid : Nat) (s : Int) : List Product :=
  ps.map (fun p => if p.id == pid then { p with stock := s } else p)

/-- The stock-update loop of POST `/orders` (`index.js` lines 447-450):
for each validated line, the product row is set to
`product.stock - item.quantity` where `product.stock` is the stock read
by the initial SELECT (the `snapshot`), not the running value — so when
the same product appears on several lines the last line wins.  The
`none` branch is unreachable for lines produced by a successful
`buildOrderItems` pass. -/
def applyStockUpdates (snapshot : List Product) : List LineData → List Product → List Product
  | [], ps => ps
  | line :: rest, ps =>
    match snapshot.find? (fun p => p.id == line.product_id) with
    | none => applyStockUpdates snapshot rest ps
    | some product =>
        applyStockUpdates snapshot rest (setStockAll ps product.id (product.stock - line.quantity))

/-- POST `/orders` (`index.js` lines 413-460).  The handler returns 400
when `user_name`, `payment_mode` or `items` is falsy/empty, then runs a
transaction: validate and price every line, insert the order (status
`pending`, total = sum of line totals), insert the line items, update
each product's stock, commit.  Any throw rolls the transaction back, so
an error result leaves the store unchanged. -/
def placeOrder (st : Store) (user_name payment_mode : String) (items : List OrderItemReq) :
    Store × Except OrderError Nat :=
  if user_name = "" ∨ payment_mode = "" ∨ items = [] then
    (st, .error (.validation "Missing required fields or items"))
  else
    match buildOrderItems st.products items with
    | .error e => (st, .error e)
    | .ok lines =>
      let orderTotal := (lines.map (fun l => l.total)).sum
      let orderId := st.nextOrderId
      let newOrder : Order := ⟨orderId, user_name, orderTotal, payment_mode, "pending"⟩
      let newItems := lines.map (fun l =>
        OrderItem.mk orderId l.product_id l.product_name l.quantity l.price l.total)
      ({ st with
          products := applyStockUpdates st.products lines st.products,
          orders := st.orders ++ [newOrder],
          order_items := st.order_items ++ newItems,
          nextOrderId := orderId + 1 },
       .ok orderId)

/-- Returns `true` when the stock check of POST `/orders` rejects request line
`i` against the given products table: the referenced product does not
exist, or the requested quantity exceeds its current stock. -/
def lineFails (ps : List Product) (i : OrderItemReq) : Bool :=
  match ps.find? (fun p => p.id == i.product_id) with
  | none => true
  | some p => decide (p.stock < i.quantity)

/-- JS `String.prototype.toLowerCase()` on the ASCII range: lowercase
every character.  (Implemented over the character list so that it
evaluates by kernel reduction; `String.toLower` itself is defined by
well-founded recursion over byte positions.) -/
def toLowerJS (s : String) : String :=
  ⟨s.data.map Char.toLower⟩

/-- JS `String.prototype.trim()`: strip leading and trailing
whitespace.  (Same remark as `toLowerJS`.) -/
def trimJS (s : String) : String :=
  ⟨((s.data.dropWhile Char.isWhitespace).reverse.dropWhile Char.isWhitespace).reverse⟩

/-- Predicate `leadSegment sub s` is `true` when `sub` is an initial segment of `s`
(character lists). -/
def leadSegment : List Char → List Char → Bool
  | [], _ => true
  | _ :: _, [] => false
  | a :: as, b :: bs => a == b && leadSegment as bs

/-- Predicate `listContainsSub sub s` is `true` when `sub` occurs as a contiguous
segment of `s`. -/
def listContainsSub (sub : List Char) : List Char → Bool
  | [] => leadSegment sub []
  | c :: rest => leadSegment sub (c :: rest) || listContainsSub sub rest

/-- JS `/pat/i.test(s)` for a literal lowercase pattern, and
`s.toLowerCase().includes(pat)`: case-insensitive substring test. -/
def containsCI (s pat : String) : Bool :=
  listContainsSub pat.toList (toLowerJS s).toList

/-- The status normalization of PUT `/orders/:id/status` (`index.js`
lines 468-471): trim, then three successive regex tests reassigning the
same variable — `/cancelled/i`, `/delivered/i`, `/pending/i`. -/
def normalizeStatus (status : String) : String :=
  let n0 := trimJS status
  let n1 := if containsCI n0 "cancelled" then "Cancelled/Returned" else n0
  let n2 := if containsCI n1 "delivered" then "Delivered" else n1
  if containsCI n2 "pending" then "Pending" else n2

/-- The `orderStatusNotification` helper (`index.js` lines 154-164): on a falsy
status do nothing; otherwise lowercase the status and emit a status
notification when it contains "delivered", or "cancelled"/"returned". -/
def orderStatusNotification (o : Order) (ns : List Notification) : List Notification :=
  if o.status = "" then ns
  else
    let status := toLowerJS o.status
    let message :=
      if listContainsSub "delivered".toList status.toList then
        "Order #" ++ toString o.id ++ " for " ++ o.user_name ++ " has been delivered!"
      else if listContainsSub "cancelled".toList status.toList
          || listContainsSub "returned".toList status.toList then
        "Order #" ++ toString o.id ++ " for " ++ o.user_name ++ " has been cancelled/returned!"
      else ""
    if message = "" then ns else sendNotification "status" o.id message ns

/-- Result of PUT `/orders/:id/status`: HTTP 200 ack or the 400
"Status is required" input error. -/
inductive StatusResult where
  | ok
  | validationError
deriving DecidableEq, Repr

/-- PUT `/orders/:id/status` (`index.js` lines 462-481): reject a
missing (or empty, JS-falsy) status with 400; otherwise normalize,
`UPDATE orders SET status=? WHERE id=?` (a no-op when no row matches —
there is no existence check), re-read the order and, when it exists,
run `orderStatusNotification` on it; always answer "Status updated!". -/
def updateOrderStatus (st : Store) (oid : Nat) (status : Option String) :
    Store × StatusResult :=
  match status with
  | none => (st, .validationError)
  | some s =>
    if s = "" then (st, .validationError)
    else
      let ns := normalizeStatus s
      let orders' := st.orders.map (fun o => if o.id == oid then { o with status := ns } else o)
      let notifications' :=
        match orders'.find? (fun o => o.id == oid) with
        | some o => orderStatusNotification o st.notifications
        | none => st.notifications
      ({ st with orders := orders', notifications := notifications' }, .ok)

/-- A product record as returned by GET `/products` and
GET `/products/:id`: the row plus the computed `supply_alert` field. -/
structure ProductView where
  product : Product
  supply_alert : String
deriving DecidableEq, Repr

/-- GET `/products` (`index.js` lines 213-228): every row is returned
with `supply_alert` set to "LOW ON SUPPLIES" when `stock < 20` and "OK"
otherwise (the `created_at DESC` ordering is irrelevant to the claims
and omitted). -/
def listProducts (st : Store) : List ProductView :=
  st.products.map (fun p =>
    ⟨p, if p.stock < 20 then "LOW ON SUPPLIES" else "OK"⟩)

/-- GET `/products/:id` (`index.js` lines 230-251): 404 for an unknown
id, otherwise the row with the same computed `supply_alert`. -/
def getProduct (st : Store) (pid : Nat) : Option ProductView :=
  match st.products.find? (fun p => p.id == pid) with
  | none => none
  | some p => some ⟨p, if p.stock < 20 then "LOW ON SUPPLIES" else "OK"⟩

/-- Responses of POST `/products` (`index.js` lines 171-211): the 400
"Product image is required" check, and the 500 "Failed to add product"
path of the catch block. -/
inductive CreateResp where
  | missingImage
  | serverError
deriving DecidableEq, Repr

/-- POST `/products` (`index.js` lines 171-211).  With no image the
handler returns 400.  Otherwise it inserts the row, runs
`checkLowStock` when `stock < 20`, and then builds the success response
— which reads the identifier `supplyAlert` (line 196) that is never
defined in this handler (it exists only inside PUT `/products/:id`), so
the response construction throws a `ReferenceError` that the catch
block turns into the 500 "Failed to add product" answer.  The insert
and the notification are not transactional and survive. -/
def createProduct (st : Store) (name : String) (price stock : Int)
    (category description : Option String) (file : Option String) :
    Store × CreateResp :=
  match file with
  | none => (st, .missingImage)
  | some image_url =>
    let pid := st.nextProductId
    let st1 := { st with
      products := st.products ++
        [(⟨pid, name, price, stock, category, description, image_url⟩ : Product)],
      nextProductId := pid + 1 }
    let st2 := { st1 with
      notifications := st1.notifications ++
        (if stock < 20 then checkLowStock pid stock name else []) }
    (st2, .serverError)

/-- Responses of PUT `/products/:id`. -/
inductive UpdateResp where
  | notFound
  | ok (supply_alert : String)
deriving DecidableEq, Repr

/-- PUT `/products/:id` (`index.js` lines 253-300): 404 when the id is
unknown; otherwise overwrite name/price/stock/category/description and
the image URL (the uploaded file if any, else `existingImageUrl`), then
call `checkLowStock` only on the crossing into low stock
(`stock < 20 && prevStock >= 20`), and answer with the recomputed
`supply_alert`.  `productName` is `name || prevName` (JS falsy = empty
string). -/
def updateProduct (st : Store) (pid : Nat) (name : String) (price stock : Int)
    (category description : Option String) (existingImageUrl : String)
    (file : Option String) : Store × UpdateResp :=
  match st.products.find? (fun p => p.id == pid) with
  | none => (st, .notFound)
  | some prev =>
    let prevStock := prev.stock
    let prevName := prev.name
    let image_url := match file with
      | some f => f
      | none => existingImageUrl
    let products' := st.products.map (fun p =>
      if p.id == pid then
        { p with name := name, price := price, stock := stock,
                 category := category, description := description,
                 image_url := image_url }
      else p)
    let productName := if name = "" then prevName else name
    let notifications' := st.notifications ++
      (if stock < 20 ∧ 20 ≤ prevStock then checkLowStock pid stock productName else [])
    ({ st with products := products', notifications := notifications' },
     .ok (if stock < 20 then "LOW ON SUPPLIES" else "OK"))

/-! ### Concrete stores used by witnesses and counterexamples -/

/-- One product, id 1, price 10, stock 5. -/
def storeA : Store := ⟨[⟨1, "Rose", 10, 5, none, none, "u"⟩], [], [], [], 1, 2⟩

/-- One product, id 1, price 5, stock 10. -/
def storeB : Store := ⟨[⟨1, "Rose", 5, 10, none, none, "u"⟩], [], [], [], 1, 2⟩

/-- One product, id 1, price 10, stock 20 (exactly at the threshold). -/
def storeC : Store := ⟨[⟨1, "Rose", 10, 20, none, none, "u"⟩], [], [], [], 1, 2⟩

/-- One product, id 1, price 10, stock 25. -/
def storeD : Store := ⟨[⟨1, "Rosa", 10, 25, none, none, "u"⟩], [], [], [], 1, 2⟩

/-- What a successful `buildOrderItems` pass guarantees, line by line. -/
def lineSpec (ps : List Product) (i : OrderItemReq) (l : LineData) : Prop :=
  ∃ p, ps.find? (fun q => q.id == i.product_id) = some p ∧ p.id = i.product_id ∧
    ¬ p.stock < i.quantity ∧
    l = ⟨p.id, p.name, i.quantity, p.price, p.price * i.quantity⟩

/-! ### Generic helper lemmas -/

theorem forall₂_mem_right {α β : Type} {R : α → β → Prop} {as : List α} {bs : List β}
    (h : List.Forall₂ R as bs) : ∀ b ∈ bs, ∃ a ∈ as, R a b := by
  induction h with
  | nil => simp
  | @cons a b as bs hr _ ih =>
    intro c hc
    rcases List.mem_cons.mp hc with rfl | hc
    · exact ⟨a, List.mem_cons_self a as, hr⟩
    · rcases ih c hc with ⟨a', ha', hra'⟩
      exact ⟨a', List.mem_cons_of_mem a ha', hra'⟩

theorem forall₂_mem_left {α β : Type} {R : α → β → Prop} {as : List α} {bs : List β}
    (h : List.Forall₂ R as bs) : ∀ a ∈ as, ∃ b ∈ bs, R a b := by
  induction h with
  | nil => simp
  | @cons a b as bs hr _ ih =>
    intro c hc
    rcases List.mem_cons.mp hc with rfl | hc
    · exact ⟨b, List.mem_cons_self b bs, hr⟩
    · rcases ih c hc with ⟨b', hb', hrb'⟩
      exact ⟨b', List.mem_cons_of_mem b hb', hrb'⟩

theorem forall₂_map_eq {α β γ : Type} {R : α → β → Prop} {f : α → γ} {g : β → γ}
    {as : List α} {bs : List β} (h : List.Forall₂ R as bs)
    (hfg : ∀ a b, R a b → f a = g b) : as.map f = bs.map g := by
  induction h with
  | nil => rfl
  | cons hr _ ih => simp [hfg _ _ hr, ih]

/-- Lookup `find?` by id commutes with a map that preserves ids. -/
theorem find?_map_of_id {f : Product → Product} (hid : ∀ p, (f p).id = p.id)
    (ps : List Product) (k : Nat) :
    (ps.map f).find? (fun p => p.id == k) = (ps.find? (fun p => p.id == k)).map f := by
  induction ps with
  | nil => rfl
  | cons p ps ih =>
    simp only [List.map_cons, List.find?_cons, hid]
    by_cases h : p.id == k
    · simp [h]
    · simp only [Bool.not_eq_true] at h
      simp [h, ih]

theorem setStockAll_id (pid : Nat) (v : Int) (p : Product) :
    (if p.id == pid then { p with stock := v } else p).id = p.id := by
  split <;> rfl

theorem find?_setStockAll_ne {ps : List Product} {pid k : Nat} {v : Int} (hk : k ≠ pid) :
    (setStockAll ps pid v).find? (fun p => p.id == k) = ps.find? (fun p => p.id == k) := by
  rw [setStockAll, find?_map_of_id (setStockAll_id pid v)]
  cases hf : ps.find? (fun p => p.id == k) with
  | none => rfl
  | some p =>
    have hpk : p.id = k := by simpa using List.find?_some hf
    simp [Option.map, hpk, hk]

theorem find?_setStockAll_eq {ps : List Product} {pid : Nat} {v : Int} {p : Product}
    (hf : ps.find? (fun q => q.id == pid) = some p) :
    (setStockAll ps pid v).find? (fun q => q.id == pid) = some { p with stock := v } := by
  rw [setStockAll, find?_map_of_id (setStockAll_id pid v), hf]
  have hpk : p.id = pid := by simpa using List.find?_some hf
  simp [Option.map, hpk]

theorem find?_applyStockUpdates_ne (snap : List Product) :
    ∀ (lines : List LineData) (ps : List Product) (k : Nat),
      (∀ l ∈ lines, l.product_id ≠ k) →
      (applyStockUpdates snap lines ps).find? (fun p => p.id == k)
        = ps.find? (fun p => p.id == k) := by
  intro lines
  induction lines with
  | nil => intro ps k _; rfl
  | cons line rest ih =>
    intro ps k h
    have hline : line.product_id ≠ k := h line (List.mem_cons_self line rest)
    have hrest : ∀ l ∈ rest, l.product_id ≠ k := fun l hl => h l (List.mem_cons_of_mem line hl)
    unfold applyStockUpdates
    cases hf : snap.find? (fun p => p.id == line.product_id) with
    | none => exact ih ps k hrest
    | some product =>
      have hpid : product.id = line.product_id := by simpa using List.find?_some hf
      have hk : k ≠ product.id := by
        rw [hpid]
        exact fun heq => hline heq.symm
      rw [ih _ k hrest, find?_setStockAll_ne hk]

theorem find?_applyStockUpdates_mem (snap : List Product) :
    ∀ (lines : List LineData) (ps : List Product) (l : LineData) (p : Product),
      l ∈ lines → (lines.map (fun x => x.product_id)).Nodup →
      snap.find? (fun q => q.id == l.product_id) = some p →
      ps.find? (fun q => q.id == l.product_id) = some p →
      (applyStockUpdates snap lines ps).find? (fun q => q.id == l.product_id)
        = some { p with stock := p.stock - l.quantity } := by
  intro lines
  induction lines with
  | nil => intro ps l p hl; cases hl
  | cons line rest ih =>
    intro ps l p hl hnd hsnap hps
    rw [List.map_cons] at hnd
    have hnd' := List.nodup_cons.mp hnd
    rcases List.mem_cons.mp hl with rfl | hl'
    · unfold applyStockUpdates
      rw [hsnap]
      have hpid : p.id = l.product_id := by simpa using List.find?_some hsnap
      have hrest : ∀ l' ∈ rest, l'.product_id ≠ l.product_id := by
        intro l' hmem heq
        exact hnd'.1 (heq ▸ List.mem_map_of_mem (fun x => x.product_id) hmem)
      rw [find?_applyStockUpdates_ne snap rest _ _ hrest]
      have h2 := find?_setStockAll_eq (v := p.stock - l.quantity) hps
      conv_lhs => rw [hpid]
      exact h2
    · unfold applyStockUpdates
      cases hf : snap.find? (fun q => q.id == line.product_id) with
      | none => exact ih ps l p hl' hnd'.2 hsnap hps
      | some product =>
        have hprodid : product.id = line.product_id := by simpa using List.find?_some hf
        have hne : l.product_id ≠ product.id := by
          rw [hprodid]
          intro heq
          exact hnd'.1 (heq ▸ List.mem_map_of_mem (fun x => x.product_id) hl')
        refine ih _ l p hl' hnd'.2 hsnap ?_
        rw [find?_setStockAll_ne hne]
        exact hps

theorem stock_nonneg_setStockAll {ps : List Product} {pid : Nat} {v : Int}
    (h : ∀ p ∈ ps, 0 ≤ p.stock) (hv : 0 ≤ v) :
    ∀ q ∈ setStockAll ps pid v, 0 ≤ q.stock := by
  intro q hq
  rcases List.mem_map.mp hq with ⟨p, hp, rfl⟩
  by_cases hc : p.id == pid
  · simp [hc, hv]
  · simp only [Bool.not_eq_true] at hc
    simp [hc]
    exact h p hp

theorem stock_nonneg_applyStockUpdates (snap : List Product) :
    ∀ (lines : List LineData) (ps : List Product),
      (∀ l ∈ lines, ∃ p, snap.find? (fun q => q.id == l.product_id) = some p ∧
        l.quantity ≤ p.stock) →
      (∀ p ∈ ps, 0 ≤ p.stock) →
      ∀ q ∈ applyStockUpdates snap lines ps, 0 ≤ q.stock := by
  intro lines
  induction lines with
  | nil => intro ps _ h q hq; exact h q hq
  | cons line rest ih =>
    intro ps hline hps
    obtain ⟨p, hf, hq⟩ := hline line (List.mem_cons_self line rest)
    unfold applyStockUpdates
    rw [hf]
    exact ih _ (fun l hl => hline l (List.mem_cons_of_mem line hl))
      (stock_nonneg_setStockAll hps (by omega))

theorem buildOrderItems_ok {ps : List Product} :
    ∀ {items : List OrderItemReq} {lines : List LineData},
      buildOrderItems ps items = .ok lines → List.Forall₂ (lineSpec ps) items lines := by
  intro items
  induction items with
  | nil =>
    intro lines h
    unfold buildOrderItems at h
    cases h
    exact .nil
  | cons item rest ih =>
    intro lines h
    unfold buildOrderItems at h
    split at h
    · cases h
    · rename_i product hf
      split at h
      · cases h
      · rename_i hs
        split at h
        · cases h
        · rename_i ls hb
          cases h
          exact .cons ⟨product, hf, by simpa using List.find?_some hf, hs, rfl⟩ (ih hb)

theorem buildOrderItems_error_isStock {ps : List Product} :
    ∀ {items : List OrderItemReq} {e : OrderError},
      buildOrderItems ps items = .error e → e.isStockError = true := by
  intro items
  induction items with
  | nil => intro e h; cases h
  | cons item rest ih =>
    intro e h
    unfold buildOrderItems at h
    split at h
    · cases h; rfl
    · rename_i product hf
      split at h
      · cases h; rfl
      · rename_i hs
        split at h
        · rename_i e' hb
          cases h
          exact ih hb
        · cases h

theorem buildOrderItems_error_of_fail {ps : List Product} :
    ∀ {items : List OrderItemReq}, (∃ i ∈ items, lineFails ps i = true) →
      ∃ e, buildOrderItems ps items = .error e := by
  intro items
  induction items with
  | nil => rintro ⟨i, hi, _⟩; cases hi
  | cons item rest ih =>
    rintro ⟨i, hi, hfail⟩
    unfold buildOrderItems
    split
    · exact ⟨_, rfl⟩
    · rename_i product hf
      split
      · exact ⟨_, rfl⟩
      · rename_i hs
        have hrest : ∃ j ∈ rest, lineFails ps j = true := by
          rcases List.mem_cons.mp hi with rfl | hmem
          · exfalso
            unfold lineFails at hfail
            rw [hf] at hfail
            simp [hs] at hfail
          · exact ⟨i, hmem, hfail⟩
        rcases ih hrest with ⟨e, he⟩
        rw [he]
        exact ⟨e, rfl⟩

theorem placeOrder_ok_eq {st : Store} {u pm : String} {items : List OrderItemReq}
    {lines : List LineData} (hu : u ≠ "") (hp : pm ≠ "") (hne : items ≠ [])
    (hb : buildOrderItems st.products items = .ok lines) :
    placeOrder st u pm items =
      ({ st with
          products := applyStockUpdates st.products lines st.products,
          orders := st.orders ++
            [⟨st.nextOrderId, u, (lines.map (fun l => l.total)).sum, pm, "pending"⟩],
          order_items := st.order_items ++ lines.map (fun l =>
            OrderItem.mk st.nextOrderId l.product_id l.product_name l.quantity l.price l.total),
          nextOrderId := st.nextOrderId + 1 },
       .ok st.nextOrderId) := by
  unfold placeOrder
  rw [if_neg (by simp [hu, hp, hne]), hb]

theorem placeOrder_error_eq {st : Store} {u pm : String} {items : List OrderItemReq}
    {e : OrderError} (hu : u ≠ "") (hp : pm ≠ "") (hne : items ≠ [])
    (he : buildOrderItems st.products items = .error e) :
    placeOrder st u pm items = (st, .error e) := by
  unfold placeOrder
  rw [if_neg (by simp [hu, hp, hne]), he]

/-! ### Claim theorems -/

/-- C1: if the stock check of an order placement fails for any line item
(nonexistent product, or requested quantity above current stock), the
whole transaction is rolled back — the store is unchanged, so no order
row, no line items and no stock decrement survive — and the operation
returns the corresponding stock error. -/
theorem placeOrder_stock_failure_rollback (st : Store) (u pm : String)
    (items : List OrderItemReq) (hu : u ≠ "") (hp : pm ≠ "")
    (hfail : ∃ i ∈ items, lineFails st.products i = true) :
    (placeOrder st u pm items).1 = st ∧
    ∃ e, (placeOrder st u pm items).2 = .error e ∧ e.isStockError = true := by
  have hne : items ≠ [] := by
    rcases hfail with ⟨i, hi, _⟩
    intro h
    rw [h] at hi
    cases hi
  rcases buildOrderItems_error_of_fail hfail with ⟨e, he⟩
  rw [placeOrder_error_eq hu hp hne he]
  exact ⟨rfl, e, rfl, buildOrderItems_error_isStock he⟩

/-- Witness for C1 at a concrete store: ordering 6 units of a product
with stock 5 leaves the store untouched. -/
theorem placeOrder_stock_failure_rollback_witness :
    (placeOrder storeA "Alice" "cash" [⟨1, 6⟩]).1 = storeA :=
  (placeOrder_stock_failure_rollback storeA "Alice" "cash" [⟨1, 6⟩]
    (by decide) (by decide) ⟨⟨1, 6⟩, by decide, by decide⟩).1

/-- C2 counterexample: a product update may store a negative stock —
PUT `/products/:id` performs no sign check on the incoming stock value,
so the "stock never negative" invariant fails for product updates. -/
theorem updateProduct_negative_stock_cex :
    ((updateProduct storeA 1 "Rose" 10 (-5) none none "u" none).1).products
      = [⟨1, "Rose", 10, -5, none, none, "u"⟩] ∧ (-5 : Int) < 0 := by decide

/-- C2 (amended): order placement preserves non-negativity of every
product's stock — each line is rejected when its quantity exceeds the
current stock, so the committed decrement never drives a stock below
zero (the original claim fails for product create/update, which store
the incoming stock value without a sign check). -/
theorem placeOrder_preserves_nonneg_stock (st : Store) (u pm : String)
    (items : List OrderItemReq) (h : ∀ p ∈ st.products, 0 ≤ p.stock) :
    ∀ p ∈ ((placeOrder st u pm items).1).products, 0 ≤ p.stock := by
  unfold placeOrder
  split
  · exact h
  · split
    · exact h
    · rename_i lines hb
      intro q hq
      refine stock_nonneg_applyStockUpdates st.products lines st.products ?_ h q hq
      intro l hl
      rcases forall₂_mem_right (buildOrderItems_ok hb) l hl with ⟨i, _, p, hf, hpid, hlt, hleq⟩
      subst hleq
      refine ⟨p, ?_, ?_⟩
      · show st.products.find? (fun q => q.id == p.id) = some p
        rw [hpid]
        exact hf
      · show i.quantity ≤ p.stock
        omega

/-- Witness for C2 at a concrete store: after ordering 2 of 5 units the
remaining row (stock 3) is non-negative. -/
theorem placeOrder_preserves_nonneg_stock_witness :
    0 ≤ (Product.mk 1 "Rose" 10 3 none none "u").stock :=
  placeOrder_preserves_nonneg_stock storeA "Alice" "cash" [⟨1, 2⟩] (by decide)
    ⟨1, "Rose", 10, 3, none, none, "u"⟩ (by decide)

/-- C3 counterexample: when the same product appears on two lines the
stock update is last-write-wins against the pre-transaction snapshot,
not cumulative.  With stock 10 and lines of quantity 3 and 4 the order
succeeds but the final stock is 10 - 4 = 6, not 10 - (3 + 4) = 3. -/
theorem placeOrder_duplicate_lines_cex :
    (placeOrder storeB "Alice" "cash" [⟨1, 3⟩, ⟨1, 4⟩]).2 = .ok 1 ∧
    ((placeOrder storeB "Alice" "cash" [⟨1, 3⟩, ⟨1, 4⟩]).1).products
      = [⟨1, "Rose", 5, 6, none, none, "u"⟩] ∧
    (10 : Int) - (3 + 4) ≠ 6 := by decide

/-- C3 (amended): for every successfully placed order, the persisted
order total equals the sum of the committed line totals and each line
total is the catalog unit price times the requested quantity — both
unconditionally, duplicate-line orders included; and, under the proviso
(scoped to this last conjunct alone) that no product id appears on more
than one line, each referenced product's stock after commit equals its
stock before commit minus that line's quantity.  (With duplicate lines
the committed stock is the snapshot stock minus only the last such
line's quantity.) -/
theorem placeOrder_success_totals_and_stock (st : Store) (u pm : String)
    (items : List OrderItemReq) (lines : List LineData)
    (hu : u ≠ "") (hp : pm ≠ "") (hne : items ≠ [])
    (hb : buildOrderItems st.products items = .ok lines) :
    (placeOrder st u pm items).2 = .ok st.nextOrderId ∧
    ((placeOrder st u pm items).1).orders
      = st.orders ++
          [⟨st.nextOrderId, u, (lines.map (fun l => l.total)).sum, pm, "pending"⟩] ∧
    ((placeOrder st u pm items).1).order_items
      = st.order_items ++ lines.map (fun l =>
          OrderItem.mk st.nextOrderId l.product_id l.product_name l.quantity l.price l.total) ∧
    (∀ l ∈ lines, ∃ p, st.products.find? (fun q => q.id == l.product_id) = some p ∧
        l.total = p.price * l.quantity) ∧
    ((items.map (fun i => i.product_id)).Nodup →
      ∀ i ∈ items, ∀ p, st.products.find? (fun q => q.id == i.product_id) = some p →
        ((placeOrder st u pm items).1).products.find? (fun q => q.id == i.product_id)
          = some { p with stock := p.stock - i.quantity }) := by
  have hF := buildOrderItems_ok hb
  have hfg : ∀ (i : OrderItemReq) (l : LineData), lineSpec st.products i l →
      i.product_id = l.product_id := by
    rintro i l ⟨p, hf, hpid, hlt, rfl⟩
    exact hpid.symm
  have hkeys : items.map (fun i => i.product_id) = lines.map (fun l => l.product_id) :=
    forall₂_map_eq hF hfg
  rw [placeOrder_ok_eq hu hp hne hb]
  refine ⟨rfl, rfl, rfl, ?_, ?_⟩
  · intro l hl
    rcases forall₂_mem_right hF l hl with ⟨i, _, p, hf, hpid, hlt, hleq⟩
    subst hleq
    refine ⟨p, ?_, rfl⟩
    show st.products.find? (fun q => q.id == p.id) = some p
    rw [hpid]
    exact hf
  · intro hnodup i hi p hf
    have hndl : (lines.map (fun l => l.product_id)).Nodup := by
      rw [← hkeys]
      exact hnodup
    rcases forall₂_mem_left hF i hi with ⟨l, hl, p', hf', hpid', hlt', hleq'⟩
    rw [hf] at hf'
    injection hf' with hpp
    subst hpp
    subst hleq'
    have happ := find?_applyStockUpdates_mem st.products lines st.products
      ⟨p.id, p.name, i.quantity, p.price, p.price * i.quantity⟩ p hl hndl
      (by show st.products.find? (fun q => q.id == p.id) = some p
          rw [hpid']
          exact hf)
      (by show st.products.find? (fun q => q.id == p.id) = some p
          rw [hpid']
          exact hf)
    show (applyStockUpdates st.products lines st.products).find?
        (fun q => q.id == i.product_id) = some { p with stock := p.stock - i.quantity }
    rw [← hpid']
    exact happ

/-- Witness for C3 at a concrete store: ordering 2 of the 5 in stock
commits the row with stock 3 = 5 - 2. -/
theorem placeOrder_success_totals_and_stock_witness :
    (placeOrder storeA "Alice" "cash" [⟨1, 2⟩]).1.products.find? (fun q => q.id == 1)
      = some ⟨1, "Rose", 10, 3, none, none, "u"⟩ :=
  (placeOrder_success_totals_and_stock storeA "Alice" "cash" [⟨1, 2⟩]
      [⟨1, "Rose", 2, 10, 20⟩] (by decide) (by decide) (by decide)
      (by decide)).2.2.2.2
    (by decide) ⟨1, 2⟩ (by decide) ⟨1, "Rose", 10, 5, none, none, "u"⟩ (by decide)

/-- C4 counterexample: an order line with quantity 0 (not strictly
positive) is not rejected — POST `/orders` never validates quantities —
so the order is placed and the store is written, instead of failing
with a validation error before touching storage. -/
theorem placeOrder_zero_quantity_cex :
    (placeOrder storeA "Alice" "cash" [⟨1, 0⟩]).2 = .ok 1 ∧
    ((placeOrder storeA "Alice" "cash" [⟨1, 0⟩]).1).orders ≠ [] := by decide

/-- C4 (amended): the input validation of POST `/orders` rejects exactly
an empty customer name, an empty payment mode or an empty item list,
failing with the validation error and an unchanged store before any
storage access; item quantities are not validated, so a non-positive
quantity flows on into the stock-check/commit path. -/
theorem placeOrder_input_validation (st : Store) (u pm : String)
    (items : List OrderItemReq) (h : u = "" ∨ pm = "" ∨ items = []) :
    placeOrder st u pm items
      = (st, .error (.validation "Missing required fields or items")) := by
  unfold placeOrder
  rw [if_pos h]

/-- Witness for C4 (amended): empty customer name at a concrete store. -/
theorem placeOrder_input_validation_witness :
    placeOrder storeA "" "cash" [⟨1, 1⟩]
      = (storeA, .error (.validation "Missing required fields or items")) :=
  placeOrder_input_validation storeA "" "cash" [⟨1, 1⟩] (Or.inl rfl)

/-- C5 counterexample: a committed order that drives a product's stock
below the threshold (20 → 19) emits no LowStock notification —
POST `/orders` contains no notification call at all. -/
theorem placeOrder_no_lowstock_cex :
    (placeOrder storeC "Alice" "cash" [⟨1, 1⟩]).2 = .ok 1 ∧
    ((placeOrder storeC "Alice" "cash" [⟨1, 1⟩]).1).products
      = [⟨1, "Rose", 10, 19, none, none, "u"⟩] ∧
    ((placeOrder storeC "Alice" "cash" [⟨1, 1⟩]).1).notifications = [] := by decide

/-- C5 (amended): order placement never touches the notifications
table: no LowStock notification is emitted by POST `/orders`, whatever
the post-decrement stocks are.  LowStock alerts are produced only by
the product create/update paths. -/
theorem placeOrder_notifications_unchanged (st : Store) (u pm : String)
    (items : List OrderItemReq) :
    ((placeOrder st u pm items).1).notifications = st.notifications := by
  unfold placeOrder
  split
  · rfl
  · split <;> rfl

/-- C6 counterexample: a requested status "returned" is stored verbatim
rather than normalized to the canonical Cancelled/Returned — the
handler only tests `/cancelled/i`, never "returned". -/
theorem normalizeStatus_returned_cex :
    normalizeStatus "returned" = "returned" ∧
    normalizeStatus "returned" ≠ "Cancelled/Returned" := by decide

/-- C6 (amended): the status normalization maps any string containing
"cancelled" (case-insensitively) to Cancelled/Returned, otherwise any
string containing "delivered" to Delivered, otherwise any string
containing "pending" to Pending, and stores any other string —
including those containing "returned" — verbatim after trimming. -/
theorem normalizeStatus_characterization (s : String) :
    normalizeStatus s =
      (if containsCI (trimJS s) "cancelled" then "Cancelled/Returned"
       else if containsCI (trimJS s) "delivered" then "Delivered"
       else if containsCI (trimJS s) "pending" then "Pending"
       else trimJS s) := by
  simp only [normalizeStatus]
  cases h1 : containsCI (trimJS s) "cancelled" with
  | true =>
    simp only [eq_self_iff_true, if_true]
    decide
  | false =>
    simp only [Bool.false_eq_true, if_false]
    cases h2 : containsCI (trimJS s) "delivered" with
    | true =>
      simp only [eq_self_iff_true, if_true]
      decide
    | false =>
      simp only [Bool.false_eq_true, if_false]

/-- C7 counterexample: updating the status of a nonexistent order id
does not fail with a not-found error — there is no existence check, so
the UPDATE is a no-op and the handler still acknowledges. -/
theorem updateOrderStatus_unknown_id_cex :
    storeA.orders = [] ∧
    (updateOrderStatus storeA 1 (some "delivered")).2 = .ok ∧
    (updateOrderStatus storeA 1 (some "delivered")).1 = storeA := by decide

/-- C7 (amended): a missing (or empty, JS-falsy) requested status fails
with the validation error and leaves the store unchanged; an unknown
orderId is not rejected — the update is a no-op on the orders table, no
notification is emitted, and the handler still returns the ok ack. -/
theorem updateOrderStatus_missing_and_unknown (st : Store) (oid : Nat) (s : String)
    (hs : s ≠ "") (hid : ∀ o ∈ st.orders, o.id ≠ oid) :
    updateOrderStatus st oid none = (st, .validationError) ∧
    updateOrderStatus st oid (some "") = (st, .validationError) ∧
    (updateOrderStatus st oid (some s)).2 = .ok ∧
    ((updateOrderStatus st oid (some s)).1).orders = st.orders ∧
    ((updateOrderStatus st oid (some s)).1).notifications = st.notifications := by
  have horders : st.orders.map
      (fun o => if o.id == oid then { o with status := normalizeStatus s } else o)
      = st.orders := by
    conv_rhs => rw [← List.map_id st.orders]
    refine List.map_congr_left ?_
    intro o ho
    simp [hid o ho]
  have hfind : (st.orders.map
      (fun o => if o.id == oid then { o with status := normalizeStatus s } else o)).find?
        (fun o => o.id == oid) = none := by
    rw [horders, List.find?_eq_none]
    intro o ho
    simp [hid o ho]
  refine ⟨rfl, ?_, ?_, ?_, ?_⟩
  · simp only [updateOrderStatus]
    rw [if_pos trivial]
  · simp only [updateOrderStatus]
    rw [if_neg hs]
  · simp only [updateOrderStatus]
    rw [if_neg hs]
    exact horders
  · simp only [updateOrderStatus]
    rw [if_neg hs]
    show (match (st.orders.map
        (fun o => if o.id == oid then { o with status := normalizeStatus s } else o)).find?
          (fun o => o.id == oid) with
      | some o => orderStatusNotification o st.notifications
      | none => st.notifications) = st.notifications
    rw [hfind]

/-- Witness for C7 (amended) at a concrete store with no orders. -/
theorem updateOrderStatus_missing_and_unknown_witness :
    updateOrderStatus storeA 1 none = (storeA, .validationError) ∧
    updateOrderStatus storeA 1 (some "") = (storeA, .validationError) ∧
    (updateOrderStatus storeA 1 (some "x")).2 = .ok ∧
    ((updateOrderStatus storeA 1 (some "x")).1).orders = storeA.orders ∧
    ((updateOrderStatus storeA 1 (some "x")).1).notifications = storeA.notifications :=
  updateOrderStatus_missing_and_unknown storeA 1 "x" (by decide) (by decide)

/-- C8: on a product update of an existing product, a LowStock
notification is appended exactly when the update crosses into low stock
(previous stock at least 20, new stock strictly below 20); in every
other case — in particular when an already-low-stock product is set to
another value below 20 — the notifications table is unchanged. -/
theorem updateProduct_lowstock_crossing (st : Store) (pid : Nat) (name : String)
    (price stock : Int) (category description : Option String)
    (existingImageUrl : String) (file : Option String) (prev : Product)
    (h : st.products.find? (fun p => p.id == pid) = some prev) :
    ((updateProduct st pid name price stock category description
        existingImageUrl file).1).notifications
      = st.notifications ++
          (if stock < 20 ∧ 20 ≤ prev.stock then
            [lowStockNote pid (if name = "" then prev.name else name)]
          else []) := by
  unfold updateProduct
  rw [h]
  show st.notifications ++
      (if stock < 20 ∧ 20 ≤ prev.stock then
        checkLowStock pid stock (if name = "" then prev.name else name)
      else []) = _
  by_cases hc : stock < 20 ∧ 20 ≤ prev.stock
  · rw [if_pos hc, if_pos hc]
    unfold checkLowStock
    rw [if_pos hc.1]
  · rw [if_neg hc, if_neg hc]

/-- Witness for C8 at a concrete store: updating stock from 25 to 15
appends exactly one LowStock notification. -/
theorem updateProduct_lowstock_crossing_witness :
    ((updateProduct storeD 1 "Rose" 10 15 none none "u" none).1).notifications
      = storeD.notifications ++
          (if (15 : Int) < 20 ∧ 20 ≤ (25 : Int) then
            [lowStockNote 1 (if "Rose" = "" then "Rosa" else "Rose")]
          else []) :=
  updateProduct_lowstock_crossing storeD 1 "Rose" 10 15 none none "u" none
    ⟨1, "Rosa", 10, 25, none, none, "u"⟩ (by decide)

/-- C9 (code bug): POST `/products` with an image never returns the new
product's id — the success response reads the undefined identifier
`supplyAlert` (`index.js` line 196), so the handler always throws after
inserting the row and answers the 500 "Failed to add product", even
though the product was persisted. -/
theorem createProduct_inserts_but_fails (st : Store) (name : String)
    (price stock : Int) (category description : Option String) (img : String) :
    (createProduct st name price stock category description (some img)).2
      = .serverError ∧
    ((createProduct st name price stock category description (some img)).1).products
      = st.products ++ [⟨st.nextProductId, name, price, stock, category, description, img⟩] :=
  ⟨rfl, rfl⟩

/-- C10: every record returned by the product listing and single-product
read carries `supply_alert` equal to "LOW ON SUPPLIES" exactly when its
stock is strictly below 20 and "OK" otherwise — the same threshold at
which `checkLowStock` emits a LowStock notification. -/
theorem supply_alert_threshold (st : Store) :
    (∀ v ∈ listProducts st,
      (v.supply_alert = "LOW ON SUPPLIES" ↔ v.product.stock < 20) ∧
      (v.supply_alert = "OK" ↔ ¬ v.product.stock < 20) ∧
      (checkLowStock v.product.id v.product.stock v.product.name ≠ [] ↔
        v.product.stock < 20)) ∧
    (∀ pid v, getProduct st pid = some v →
      (v.supply_alert = "LOW ON SUPPLIES" ↔ v.product.stock < 20) ∧
      (v.supply_alert = "OK" ↔ ¬ v.product.stock < 20)) := by
  have key : ∀ p : Product,
      ((if p.stock < 20 then "LOW ON SUPPLIES" else "OK") = "LOW ON SUPPLIES" ↔
        p.stock < 20) ∧
      ((if p.stock < 20 then "LOW ON SUPPLIES" else "OK") = "OK" ↔
        ¬ p.stock < 20) ∧
      (checkLowStock p.id p.stock p.name ≠ [] ↔ p.stock < 20) := by
    intro p
    by_cases hs : p.stock < 20
    · rw [if_pos hs]
      refine ⟨⟨fun _ => hs, fun _ => rfl⟩, ⟨fun h' => absurd h' (by decide),
        fun h' => absurd hs h'⟩, ?_⟩
      unfold checkLowStock
      rw [if_pos hs]
      exact ⟨fun _ => hs, fun _ => by simp⟩
    · rw [if_neg hs]
      refine ⟨⟨fun h' => absurd h'.symm (by decide), fun h' => absurd h' hs⟩,
        ⟨fun _ => hs, fun _ => rfl⟩, ?_⟩
      unfold checkLowStock
      rw [if_neg hs]
      exact ⟨fun h' => absurd rfl h', fun h' => absurd h' hs⟩
  constructor
  · intro v hv
    rcases List.mem_map.mp hv with ⟨p, _, rfl⟩
    exact key p
  · intro pid v hv
    unfold getProduct at hv
    split at hv
    · cases hv
    · rename_i p hf
      cases hv
      exact ⟨(key p).1, (key p).2.1⟩

/-- Witness for C10 at a concrete store: the single listed product has
stock 5 and is flagged "LOW ON SUPPLIES". -/
theorem supply_alert_threshold_witness :
    ((⟨⟨1, "Rose", 10, 5, none, none, "u"⟩, "LOW ON SUPPLIES"⟩ : ProductView).supply_alert
        = "LOW ON SUPPLIES" ↔
      (⟨⟨1, "Rose", 10, 5, none, none, "u"⟩, "LOW ON SUPPLIES"⟩ : ProductView).product.stock
        < 20) ∧
    ((⟨⟨1, "Rose", 10, 5, none, none, "u"⟩, "LOW ON SUPPLIES"⟩ : ProductView).supply_alert
        = "OK" ↔
      ¬ (⟨⟨1, "Rose", 10, 5, none, none, "u"⟩, "LOW ON SUPPLIES"⟩ : ProductView).product.stock
        < 20) ∧
    (checkLowStock 1 5 "Rose" ≠ [] ↔
      (⟨⟨1, "Rose", 10, 5, none, none, "u"⟩, "LOW ON SUPPLIES"⟩ : ProductView).product.stock
        < 20) :=
  (supply_alert_threshold storeA).1
    ⟨⟨1, "Rose", 10, 5, none, none, "u"⟩, "LOW ON SUPPLIES"⟩ (by decide)

end Flowershop
